import Mathlib

/-!
Verification of the config-controller reconciliation engine.

This file shallowly embeds the core of `src/manager.ts` (class `Manager`):
the pair cache, the per-entry reconcile rules of `_syncSecrets`, the secret
materialization pipeline (`createSecretForConfigMap`, `getDecryptionSecret`,
`createSecretWithConfigMapData`), and the busy/pending sync scheduler
(`syncSecrets`, `start`).

Modelling conventions:
* The cluster API client and the external `parseEnvContent` routine are
  collaborators; they are modelled as a record of functions (`Cluster`)
  supplied as a parameter, each returning `Except String`.
* Fields that the TypeScript code reads through non-null assertions on
  objects that always carry them in the cluster (metadata, name, namespace,
  the resourceVersion of a watched ConfigMap) are modelled as total fields.
  The `target-secret` label, read with a non-null assertion, is modelled
  with a `""` default; the watch label selector guarantees its presence.
* Label sets and data payloads are association lists looked up with
  `List.lookup`; a missing key is `none`, matching the `undefined` a
  JavaScript property read yields.
* `Buffer.from(v).toString(&base64&)` and the reverse decode are embedded
  as executable UTF-8 plus base64 codecs over `Nat` byte values. The
  decoder is lenient on malformed input (as node is); the verified claims
  only exercise it on well-formed input.
* The JavaScript runtime TypeError raised when `_syncSecrets` dereferences
  the absent ConfigMap of an orphan entry (line 130 of the source, the
  `else if` version guard evaluated after the delete branch) is modelled
  by the thrown-error marker `typeErrorMsg`; node reports it as
  TypeError: Cannot read properties of undefined (reading metadata).
-/

/-- Metadata of a watched ConfigMap: name, namespace (`ns`), the opaque
content-version token `resourceVersion`, and its labels. -/
structure ConfigMapMeta where
  name : String
  ns : String
  resourceVersion : String
  labels : List (String × String)
deriving DecidableEq, Repr

/-- Metadata of a Secret: name, namespace and labels. The engine never
reads a resourceVersion off a Secret, so none is modelled. -/
structure SecretMeta where
  name : String
  ns : String
  labels : List (String × String)
deriving DecidableEq, Repr

/-- Embedding of `k8s.V1ConfigMap` as used by the engine. -/
structure V1ConfigMap where
  metadata : ConfigMapMeta
  data : List (String × String)
deriving DecidableEq, Repr

/-- Embedding of `k8s.V1Secret` as used by the engine. -/
structure V1Secret where
  apiVersion : String
  kind : String
  metadata : SecretMeta
  type : String
  data : List (String × String)
deriving DecidableEq, Repr

/-- One cache entry: the most recently observed Secret and ConfigMap for a
pair key, either possibly absent. -/
structure CacheEntry where
  secret : Option V1Secret
  configMap : Option V1ConfigMap
deriving DecidableEq, Repr

def labelTargetSecret : String := "config.s24.dev/target-secret"

def labelSourceKey : String := "config.s24.dev/source-key"

def labelDecryptionSecret : String := "config.s24.dev/decryption-secret"

def labelDecryptionSecretKey : String := "config.s24.dev/decryption-secret-key"

def labelSourceConfigMap : String := "config.s24.dev/source-configmap"

def labelSourceConfigMapVersion : String := "config.s24.dev/source-configmap-version"

/-- UTF-8 encoding of one character, as byte values (model of what
`Buffer.from(string)` does per character). -/
def utf8EncodeCharBytes (c : Char) : List Nat :=
  let n := c.toNat
  if n < 0x80 then [n]
  else if n < 0x800 then [0xC0 + (n >>> 6), 0x80 + (n % 64)]
  else if n < 0x10000 then
    [0xE0 + (n >>> 12), 0x80 + ((n >>> 6) % 64), 0x80 + (n % 64)]
  else
    [0xF0 + (n >>> 18), 0x80 + ((n >>> 12) % 64), 0x80 + ((n >>> 6) % 64), 0x80 + (n % 64)]

/-- UTF-8 byte sequence of a string. -/
def strBytes (s : String) : List Nat :=
  (s.data.map utf8EncodeCharBytes).flatten

/-- Character of one 6-bit value in the standard base64 alphabet. -/
def b64Char (n : Nat) : Char :=
  if n < 26 then Char.ofNat (65 + n)
  else if n < 52 then Char.ofNat (97 + n - 26)
  else if n < 62 then Char.ofNat (48 + n - 52)
  else if n = 62 then '+'
  else '/'

/-- Base64-encode a byte sequence, with `=` padding. -/
def b64EncodeBytes : List Nat → List Char
  | [] => []
  | [b0] => [b64Char (b0 >>> 2), b64Char ((b0 % 4) <<< 4), '=', '=']
  | [b0, b1] =>
    [b64Char (b0 >>> 2), b64Char (((b0 % 4) <<< 4) + (b1 >>> 4)),
     b64Char ((b1 % 16) <<< 2), '=']
  | b0 :: b1 :: b2 :: rest =>
    b64Char (b0 >>> 2) :: b64Char (((b0 % 4) <<< 4) + (b1 >>> 4)) ::
    b64Char (((b1 % 16) <<< 2) + (b2 >>> 6)) :: b64Char (b2 % 64) ::
    b64EncodeBytes rest

/-- Model of `Buffer.from(s).toString(&base64&)`. -/
def base64EncodeString (s : String) : String :=
  String.mk (b64EncodeBytes (strBytes s))

/-- Value of a base64 alphabet character; `none` for padding and any
character outside the alphabet (node skips those on decode). -/
def b64Value (c : Char) : Option Nat :=
  let n := c.toNat
  if 65 ≤ n ∧ n ≤ 90 then some (n - 65)
  else if 97 ≤ n ∧ n ≤ 122 then some (n - 97 + 26)
  else if 48 ≤ n ∧ n ≤ 57 then some (n - 48 + 52)
  else if c = '+' then some 62
  else if c = '/' then some 63
  else none

/-- Regroup base64 sextets into bytes (quads of sextets give three bytes,
a trailing pair or triple gives one or two). -/
def b64DecodeQuads : List Nat → List Nat
  | a :: b :: c :: d :: rest =>
    ((a <<< 2) + (b >>> 4)) :: (((b % 16) <<< 4) + (c >>> 2)) ::
    (((c % 4) <<< 6) + d) :: b64DecodeQuads rest
  | [a, b] => [(a <<< 2) + (b >>> 4)]
  | [a, b, c] => [(a <<< 2) + (b >>> 4), ((b % 16) <<< 4) + (c >>> 2)]
  | _ => []

/-- Decode a UTF-8 byte sequence to characters. Lenient on malformed
input: stray or truncated sequences yield the replacement character which
the verified claims never exercise. -/
def utf8DecodeBytes : List Nat → List Char
  | [] => []
  | b :: rest =>
    if b < 0x80 then Char.ofNat b :: utf8DecodeBytes rest
    else if b < 0xE0 then
      match rest with
      | b1 :: rest2 => Char.ofNat (((b % 0x20) <<< 6) + (b1 % 0x40)) :: utf8DecodeBytes rest2
      | [] => [Char.ofNat 0xFFFD]
    else if b < 0xF0 then
      match rest with
      | b1 :: b2 :: rest3 =>
        Char.ofNat (((b % 0x10) <<< 12) + ((b1 % 0x40) <<< 6) + (b2 % 0x40)) ::
        utf8DecodeBytes rest3
      | _ => [Char.ofNat 0xFFFD]
    else
      match rest with
      | b1 :: b2 :: b3 :: rest4 =>
        Char.ofNat (((b % 8) <<< 18) + ((b1 % 0x40) <<< 12) + ((b2 % 0x40) <<< 6) + (b3 % 0x40)) ::
        utf8DecodeBytes rest4
      | _ => [Char.ofNat 0xFFFD]

/-- Model of `Buffer.from(s, &base64&).toString(&utf-8&)`. -/
def base64DecodeToUtf8 (s : String) : String :=
  String.mk (utf8DecodeBytes (b64DecodeQuads (s.data.filterMap b64Value)))

/-- One observable external call issued by the engine: the four cluster
API operations it uses, plus an invocation of the external
`parseEnvContent` collaborator (recorded so that what the parse function
receives is itself observable). -/
inductive ExtCall where
  | deleteSecret (name ns : String)
  | readSecret (name ns : String)
  | createSecret (ns : String) (body : V1Secret)
  | replaceSecret (name ns : String) (body : V1Secret)
  | parseEnv (content : String) (key : Option String)
deriving DecidableEq, Repr

/-- A structured log line; the pino payload objects are dropped, only the
level and message are kept. -/
inductive LogEvent where
  | info (msg : String)
  | error (msg : String)
deriving DecidableEq, Repr

/-- The external collaborators: the cluster API client
(`k8sClient.coreV1Api`) and `parseEnvContent`. Each operation may fail;
the engine treats any failure as a thrown exception. -/
structure Cluster where
  deleteSecret : String → String → Except String Unit
  readSecret : String → String → Except String V1Secret
  createSecret : String → V1Secret → Except String V1Secret
  replaceSecret : String → String → V1Secret → Except String V1Secret
  parseEnv : String → Option String → Except String (List (String × String))

/-- Model of the runtime TypeError thrown when the orphan branch of
`_syncSecrets` falls through into the version guard, which dereferences
the absent ConfigMap. -/
def typeErrorMsg : String := "TypeError: Cannot read properties of undefined (reading metadata)"

/-- Resolved source key of a ConfigMap: the `source-key` label or the
`.env` default (manager.ts line 142). -/
def sourceKeyOf (configMap : V1ConfigMap) : String :=
  (configMap.metadata.labels.lookup labelSourceKey).getD ".env"

/-- Resolved target Secret name: the `target-secret` label (read with a
non-null assertion in the source; the watch selector guarantees it). -/
def targetSecretOf (configMap : V1ConfigMap) : String :=
  (configMap.metadata.labels.lookup labelTargetSecret).getD ""

/-- Resolved data-entry name inside the decryption Secret: the
`decryption-secret-key` label or the `CONFIG_DECRYPTION_KEY` default
(manager.ts line 149). -/
def decryptionKeyNameOf (configMap : V1ConfigMap) : String :=
  (configMap.metadata.labels.lookup labelDecryptionSecretKey).getD "CONFIG_DECRYPTION_KEY"

/-- Embedding of `getDecryptionSecret` (manager.ts lines 162-171): read
the named Secret in the source namespace, look up the key entry, base64
decode it to a plain string. Returns the result together with the
external calls issued. -/
def getDecryptionSecret (cl : Cluster) (sourceNs keySecretName keySecretKey : String) :
    Except String String × List ExtCall :=
  match cl.readSecret keySecretName sourceNs with
  | .error e => (.error e, [ExtCall.readSecret keySecretName sourceNs])
  | .ok secret =>
    match secret.data.lookup keySecretKey with
    | none =>
      (.error ("Key " ++ keySecretKey ++ " not found in secret " ++ keySecretName),
       [ExtCall.readSecret keySecretName sourceNs])
    | some v => (.ok (base64DecodeToUtf8 v), [ExtCall.readSecret keySecretName sourceNs])

/-- Embedding of the decryption-key resolution step of
`createSecretForConfigMap` (manager.ts lines 148-152). The source guards
with the JavaScript truthiness ternary on the label value, not with mere
presence: an absent label and a present-but-empty label value are both
falsy, and both skip key resolution, so the parse function receives no
key; only a present, non-empty label names the Secret to read through
`getDecryptionSecret`. -/
def resolveKey (cl : Cluster) (configMap : V1ConfigMap) :
    Except String (Option String) × List ExtCall :=
  match configMap.metadata.labels.lookup labelDecryptionSecret with
  | some keySecretName =>
    if keySecretName ≠ "" then
      match getDecryptionSecret cl configMap.metadata.ns keySecretName (decryptionKeyNameOf configMap) with
      | (.ok k, cs) => (.ok (some k), cs)
      | (.error e, cs) => (.error e, cs)
    else (.ok none, [])
  | none => (.ok none, [])

/-- The Secret body built by `createSecretWithConfigMapData`
(manager.ts lines 183-200): fixed apiVersion, kind and type, target name,
the namespace of the ConfigMap, the source-configmap and
source-configmap-version labels, and each data value base64-encoded. -/
def builtSecret (configMap : V1ConfigMap) (name : String)
    (data : List (String × String)) : V1Secret :=
  { apiVersion := "v1"
    kind := "Secret"
    metadata :=
      { name := name
        ns := configMap.metadata.ns
        labels := [(labelSourceConfigMap, configMap.metadata.name),
                   (labelSourceConfigMapVersion, configMap.metadata.resourceVersion)] }
    type := "Opaque"
    data := data.map (fun p => (p.1, base64EncodeString p.2)) }

/-- Embedding of `createSecretWithConfigMapData` (manager.ts lines
177-206): build the body, then replace (when an existing Secret was
supplied) or create, returning the body the cluster reports back. -/
def createSecretWithConfigMapData (cl : Cluster) (configMap : V1ConfigMap) (name : String)
    (data : List (String × String)) (existingSecret : Option V1Secret) :
    Except String V1Secret × List ExtCall :=
  let secret := builtSecret configMap name data
  match existingSecret with
  | some _ =>
    (cl.replaceSecret secret.metadata.name secret.metadata.ns secret,
     [ExtCall.replaceSecret secret.metadata.name secret.metadata.ns secret])
  | none =>
    (cl.createSecret secret.metadata.ns secret,
     [ExtCall.createSecret secret.metadata.ns secret])

/-- Embedding of `createSecretForConfigMap` (manager.ts lines 141-160):
resolve the source key and read the source content (failing with the
missing-source-key error before any external call), resolve the optional
decryption key, invoke the parse collaborator, then build and write the
target Secret. -/
def createSecretForConfigMap (cl : Cluster) (configMap : V1ConfigMap)
    (existingSecret : Option V1Secret) : Except String V1Secret × List ExtCall :=
  match configMap.data.lookup (sourceKeyOf configMap) with
  | none =>
    (.error ("Key " ++ sourceKeyOf configMap ++ " not found in ConfigMap " ++ configMap.metadata.name), [])
  | some sourceData =>
    match resolveKey cl configMap with
    | (.error e, cs) => (.error e, cs)
    | (.ok decryptionSecret, cs) =>
      match cl.parseEnv sourceData decryptionSecret with
      | .error e => (.error e, cs ++ [ExtCall.parseEnv sourceData decryptionSecret])
      | .ok secretData =>
        match createSecretWithConfigMapData cl configMap (targetSecretOf configMap) secretData existingSecret with
        | (res, wcs) => (res, cs ++ [ExtCall.parseEnv sourceData decryptionSecret] ++ wcs)

/-- Outcome of the `_syncSecrets` body for one cache entry: the updated
entry (`none` when it was removed from the cache), the external calls
issued, the log lines emitted, and the error that escaped the loop body
uncaught, if any. -/
structure EntryOutcome where
  entry : Option CacheEntry
  calls : List ExtCall
  logs : List LogEvent
  thrown : Option String
deriving DecidableEq, Repr

/-- Embedding of the `_syncSecrets` loop body for one entry (manager.ts
lines 105-137). Mirrors the source control flow exactly: the orphan
branch (ConfigMap absent, Secret present) performs the delete and then
falls through into the `else if` version guard, whose right-hand side
dereferences the absent ConfigMap and throws a TypeError. -/
def processEntry (cl : Cluster) (secretName : String) (e : CacheEntry) : EntryOutcome :=
  match e.secret, e.configMap with
  | none, none => ⟨none, [], [], none⟩
  | some secret, none =>
    let delLog := LogEvent.info ("ConfigMap for " ++ secretName ++ " not found. Deleting secret.")
    let call := ExtCall.deleteSecret secret.metadata.name secret.metadata.ns
    match cl.deleteSecret secret.metadata.name secret.metadata.ns with
    | .ok _ => ⟨none, [call], [delLog], some typeErrorMsg⟩
    | .error _ =>
      ⟨some e, [call], [delLog, LogEvent.error ("Failed to delete secret " ++ secretName)],
       some typeErrorMsg⟩
  | none, some configMap =>
    let crLog := LogEvent.info ("Secret for " ++ secretName ++ " does not exist. Creating secret.")
    match createSecretForConfigMap cl configMap none with
    | (.ok sec, calls) => ⟨some { e with secret := some sec }, calls, [crLog], none⟩
    | (.error _, calls) =>
      ⟨some e, calls, [crLog, LogEvent.error ("Failed to create secret " ++ secretName)], none⟩
  | some secret, some configMap =>
    if secret.metadata.labels.lookup labelSourceConfigMapVersion ≠ some configMap.metadata.resourceVersion then
      let upLog := LogEvent.info ("ConfigMap for " ++ secretName ++ " updated. Updating secret.")
      match createSecretForConfigMap cl configMap (some secret) with
      | (.ok sec, calls) => ⟨some { e with secret := some sec }, calls, [upLog], none⟩
      | (.error _, calls) =>
        ⟨some e, calls, [upLog, LogEvent.error ("Failed to update secret " ++ secretName)], none⟩
    else ⟨some e, [], [], none⟩

/-- Result of one reconcile pass: the cache after the pass, the external
calls, the log lines, and the error that escaped `_syncSecrets`, if any. -/
structure PassResult where
  cache : List (String × CacheEntry)
  calls : List ExtCall
  logs : List LogEvent
  thrown : Option String
deriving DecidableEq, Repr

/-- Cache fragment an entry outcome leaves behind under its key: nothing
when the entry was removed, the updated entry otherwise. -/
def entryList (k : String) : Option CacheEntry → List (String × CacheEntry)
  | none => []
  | some e2 => [(k, e2)]

/-- Embedding of the `_syncSecrets` iteration (manager.ts lines 104-139):
entries are visited in cache order; an error escaping one entry aborts
the loop, leaving the remaining entries untouched and unprocessed. -/
def syncLoop (cl : Cluster) : List (String × CacheEntry) → PassResult
  | [] => ⟨[], [], [], none⟩
  | (k, e) :: rest =>
    match processEntry cl k e with
    | ⟨oe, calls, logs, some err⟩ => ⟨entryList k oe ++ rest, calls, logs, some err⟩
    | ⟨oe, calls, logs, none⟩ =>
      let r := syncLoop cl rest
      ⟨entryList k oe ++ r.cache, calls ++ r.calls, logs ++ r.logs, r.thrown⟩

/-- Embedding of one full reconcile pass as started by `syncSecrets`
(manager.ts lines 91-97): run `_syncSecrets`, then log the completion
line, or the failed-to-sync error line when an error escaped the loop. -/
def syncSecretsPass (cl : Cluster) (cache : List (String × CacheEntry)) : PassResult :=
  let r := syncLoop cl cache
  { r with
    logs := r.logs ++ [match r.thrown with
      | none => LogEvent.info "Secrets synced"
      | some _ => LogEvent.error "Failed to sync secrets"] }

/-- Whether a cache entry is converged: both halves present and the
source-configmap-version label of the Secret equals the content-version
token of the ConfigMap. -/
def convergedEntry (e : CacheEntry) : Bool :=
  match e.secret, e.configMap with
  | some s, some cm =>
    s.metadata.labels.lookup labelSourceConfigMapVersion == some cm.metadata.resourceVersion
  | _, _ => false

/-- Scheduler state: the `isReady`, `isPendingSync` flags of the Manager
(manager.ts lines 10-11), whether a `_syncSecrets` promise is in flight,
and how many reconcile passes have been started. -/
structure SchedState where
  isReady : Bool
  isPendingSync : Bool
  passInFlight : Bool
  passCount : Nat
deriving DecidableEq, Repr

/-- Embedding of a `syncSecrets()` invocation (manager.ts lines 82-91):
when not ready (busy or pre-startup) only set the pending flag and
return; otherwise mark busy, clear pending and start one reconcile pass. -/
def applyTrigger (s : SchedState) : SchedState :=
  if s.isReady = false then { s with isPendingSync := true }
  else
    { isReady := false, isPendingSync := false, passInFlight := true,
      passCount := s.passCount + 1 }

/-- Embedding of the `.finally` completion of a pass (manager.ts lines
98-101): restore the ready flag; the pending flag is left as is, to be
cleared by the re-trigger it schedules. -/
def applyFinish (s : SchedState) : SchedState :=
  { s with isReady := true, passInFlight := false }

/-- Whether the `.finally` block schedules a zero-delay re-trigger: it
does exactly when the pending flag is set at completion time. -/
def finishSchedulesResync (s : SchedState) : Bool := s.isPendingSync

/-- Scheduler events: a `syncSecrets()` call (watch event, 30-second
timer, startup, or the zero-delay re-trigger), or completion of the
in-flight pass. -/
inductive Ev where
  | trigger
  | finish
deriving DecidableEq, Repr

/-- One scheduler step. -/
def step (s : SchedState) : Ev → SchedState
  | .trigger => applyTrigger s
  | .finish => applyFinish s

/-- Run a sequence of scheduler events. -/
def run (s : SchedState) (l : List Ev) : SchedState :=
  l.foldl step s

/-- Validity of an event sequence from a state: a finish event can only
occur while a pass is in flight (it is the completion of that pass). -/
def ValidFrom (s : SchedState) : List Ev → Prop
  | [] => True
  | e :: rest => (e = Ev.finish → s.passInFlight = true) ∧ ValidFrom (step s e) rest

/-- Manager state right after construction (manager.ts lines 10-11):
not ready, pending sync already set, no pass started. -/
def preInit : SchedState :=
  { isReady := false, isPendingSync := true, passInFlight := false, passCount := 0 }

/-- Manager state at the point in `start()` where `isReady` has just been
set (manager.ts line 24), before the immediate `syncSecrets()` call. -/
def readyInit : SchedState :=
  { isReady := true, isPendingSync := true, passInFlight := false, passCount := 0 }

/-- A state in the middle of the n-th reconcile pass with no pending
trigger recorded yet. -/
def busyState (n : Nat) : SchedState :=
  { isReady := false, isPendingSync := false, passInFlight := true, passCount := n }

/-- Pass-in-flight states always have the ready flag cleared: the flag is
the mutual-exclusion mechanism of the scheduler. -/
def SchedInv (s : SchedState) : Prop := s.passInFlight = true → s.isReady = false

/-- The ConfigMap of the spec scenario: namespace `default`, target
Secret `my-secret`, content version `12345`, data `.env = KEY=value`. -/
def myConfigMap : V1ConfigMap :=
  { metadata :=
      { name := "my-config", ns := "default", resourceVersion := "12345",
        labels := [(labelTargetSecret, "my-secret")] },
    data := [(".env", "KEY=value")] }

/-- A Secret already generated from `myConfigMap` at version `12345`. -/
def syncedSecret : V1Secret :=
  { apiVersion := "v1", kind := "Secret",
    metadata :=
      { name := "my-secret", ns := "default",
        labels := [(labelSourceConfigMap, "my-config"),
                   (labelSourceConfigMapVersion, "12345")] },
    type := "Opaque", data := [] }

/-- A Secret generated from an older version `00000` of `myConfigMap`. -/
def staleSecret : V1Secret :=
  { apiVersion := "v1", kind := "Secret",
    metadata :=
      { name := "my-secret", ns := "default",
        labels := [(labelSourceConfigMap, "my-config"),
                   (labelSourceConfigMapVersion, "00000")] },
    type := "Opaque", data := [] }

/-- An orphaned Secret whose source ConfigMap is not in the cache. -/
def orphanSecret : V1Secret :=
  { apiVersion := "v1", kind := "Secret",
    metadata :=
      { name := "orphan-secret", ns := "default",
        labels := [(labelSourceConfigMap, "missing-config"),
                   (labelSourceConfigMapVersion, "1")] },
    type := "Opaque", data := [] }

/-- A second, independent ConfigMap awaiting creation of its Secret. -/
def otherConfigMap : V1ConfigMap :=
  { metadata :=
      { name := "other-config", ns := "default", resourceVersion := "7",
        labels := [(labelTargetSecret, "other-secret")] },
    data := [(".env", "A=b")] }

/-- A ConfigMap whose `source-key` label names a data entry it lacks. -/
def cmMissingSource : V1ConfigMap :=
  { metadata :=
      { name := "my-config", ns := "default", resourceVersion := "12345",
        labels := [(labelTargetSecret, "my-secret"),
                   (labelSourceKey, "nonexistent.env")] },
    data := [(".env", "KEY=value")] }

/-- A ConfigMap carrying a `decryption-secret` label and no override of
the key entry name, so the `CONFIG_DECRYPTION_KEY` default applies. -/
def cmWithDecryption : V1ConfigMap :=
  { metadata :=
      { name := "my-config", ns := "default", resourceVersion := "12345",
        labels := [(labelTargetSecret, "my-secret"),
                   (labelDecryptionSecret, "key-secret")] },
    data := [(".env", "ENCRYPTED_KEY=encrypted_value")] }

/-- The Secret holding the decryption key: the `CONFIG_DECRYPTION_KEY`
entry is the base64 wire form of the plaintext `my-secret-key`. -/
def keySecret : V1Secret :=
  { apiVersion := "v1", kind := "Secret",
    metadata := { name := "key-secret", ns := "default", labels := [] },
    type := "Opaque",
    data := [("CONFIG_DECRYPTION_KEY", "bXktc2VjcmV0LWtleQ==")] }

/-- A cluster on which every external operation fails. -/
def clStub : Cluster :=
  { deleteSecret := fun _ _ => .error "unavailable"
    readSecret := fun _ _ => .error "unavailable"
    createSecret := fun _ _ => .error "unavailable"
    replaceSecret := fun _ _ _ => .error "unavailable"
    parseEnv := fun _ _ => .error "unavailable" }

/-- A cluster on which deleting a Secret succeeds and everything else is
unreachable. -/
def clDeleteOk : Cluster :=
  { deleteSecret := fun _ _ => .ok ()
    readSecret := fun _ _ => .error "unavailable"
    createSecret := fun _ _ => .error "unavailable"
    replaceSecret := fun _ _ _ => .error "unavailable"
    parseEnv := fun _ _ => .error "unavailable" }

/-- A cluster on which deleting a Secret fails with a cluster write error
while creation and parsing would succeed. -/
def clDeleteFail : Cluster :=
  { deleteSecret := fun _ _ => .error "forbidden"
    readSecret := fun _ _ => .error "unavailable"
    createSecret := fun _ b => .ok b
    replaceSecret := fun _ _ b => .ok b
    parseEnv := fun _ _ => .ok [("A", "b")] }

/-- A healthy cluster: writes echo the body back, the decryption Secret
is served, and parsing yields the mapping `KEY = value`. -/
def clHappy : Cluster :=
  { deleteSecret := fun _ _ => .ok ()
    readSecret := fun name ns =>
      if name = "key-secret" ∧ ns = "default" then .ok keySecret else .error "404"
    createSecret := fun _ b => .ok b
    replaceSecret := fun _ _ b => .ok b
    parseEnv := fun _ _ => .ok [("KEY", "value")] }

/-- A ConfigMap whose decryption-secret-key label names an entry the
decryption Secret does not hold. -/
def cmDecryptionWrongKey : V1ConfigMap :=
  { metadata :=
      { name := "my-config", ns := "default", resourceVersion := "12345",
        labels := [(labelTargetSecret, "my-secret"),
                   (labelDecryptionSecret, "key-secret"),
                   (labelDecryptionSecretKey, "OTHER_KEY")] },
    data := [(".env", "ENCRYPTED_KEY=encrypted_value")] }

/-- A ConfigMap whose decryption-secret label is present but empty: a
falsy label value, which the source treats exactly like an absent label
(no Secret read, no key handed to the parse function). -/
def cmEmptyDecryption : V1ConfigMap :=
  { metadata :=
      { name := "my-config", ns := "default", resourceVersion := "12345",
        labels := [(labelTargetSecret, "my-secret"),
                   (labelDecryptionSecret, "")] },
    data := [(".env", "ENCRYPTED_KEY=encrypted_value")] }

theorem processEntry_bothNone (cl : Cluster) (k : String) :
    processEntry cl k ⟨none, none⟩ = ⟨none, [], [], none⟩ := rfl

theorem processEntry_pair_eq (cl : Cluster) (k : String) (s : V1Secret) (cm : V1ConfigMap)
    (hv : s.metadata.labels.lookup labelSourceConfigMapVersion = some cm.metadata.resourceVersion) :
    processEntry cl k ⟨some s, some cm⟩ = ⟨some ⟨some s, some cm⟩, [], [], none⟩ := by
  dsimp only [processEntry]
  rw [if_neg (by simp [hv])]

theorem processEntry_pair_ne (cl : Cluster) (k : String) (s : V1Secret) (cm : V1ConfigMap)
    (hv : s.metadata.labels.lookup labelSourceConfigMapVersion ≠ some cm.metadata.resourceVersion) :
    processEntry cl k ⟨some s, some cm⟩ =
      match createSecretForConfigMap cl cm (some s) with
      | (.ok sec, calls) =>
        ⟨some ⟨some sec, some cm⟩, calls,
         [LogEvent.info ("ConfigMap for " ++ k ++ " updated. Updating secret.")], none⟩
      | (.error _, calls) =>
        ⟨some ⟨some s, some cm⟩, calls,
         [LogEvent.info ("ConfigMap for " ++ k ++ " updated. Updating secret."),
          LogEvent.error ("Failed to update secret " ++ k)], none⟩ := by
  dsimp only [processEntry]
  rw [if_pos hv]

theorem processEntry_create_eq (cl : Cluster) (k : String) (cm : V1ConfigMap) :
    processEntry cl k ⟨none, some cm⟩ =
      match createSecretForConfigMap cl cm none with
      | (.ok sec, calls) =>
        ⟨some ⟨some sec, some cm⟩, calls,
         [LogEvent.info ("Secret for " ++ k ++ " does not exist. Creating secret.")], none⟩
      | (.error _, calls) =>
        ⟨some ⟨none, some cm⟩, calls,
         [LogEvent.info ("Secret for " ++ k ++ " does not exist. Creating secret."),
          LogEvent.error ("Failed to create secret " ++ k)], none⟩ := rfl

theorem processEntry_orphan_thrown (cl : Cluster) (k : String) (s : V1Secret) :
    (processEntry cl k ⟨some s, none⟩).thrown = some typeErrorMsg := by
  cases h : cl.deleteSecret s.metadata.name s.metadata.ns <;> simp [processEntry, h]

theorem processEntry_no_bothNone (cl : Cluster) (k : String) (e e2 : CacheEntry)
    (hth : (processEntry cl k e).thrown = none)
    (he2 : (processEntry cl k e).entry = some e2) :
    ¬(e2.secret = none ∧ e2.configMap = none) := by
  rcases e with ⟨es, ecm⟩
  cases es with
  | none =>
    cases ecm with
    | none => simp [processEntry_bothNone] at he2
    | some cm =>
      rw [processEntry_create_eq] at he2
      rcases h : createSecretForConfigMap cl cm none with ⟨res, calls⟩
      rw [h] at he2
      cases res <;> simp only [Option.some_inj] at he2 <;> subst he2 <;> simp
  | some s =>
    cases ecm with
    | none => rw [processEntry_orphan_thrown] at hth; simp at hth
    | some cm =>
      by_cases hv : s.metadata.labels.lookup labelSourceConfigMapVersion = some cm.metadata.resourceVersion
      · rw [processEntry_pair_eq cl k s cm hv] at he2
        simp at he2
        simp [← he2]
      · rw [processEntry_pair_ne cl k s cm hv] at he2
        rcases h : createSecretForConfigMap cl cm (some s) with ⟨res, calls⟩
        rw [h] at he2
        cases res <;> simp only [Option.some_inj] at he2 <;> subst he2 <;> simp

theorem syncLoop_no_bothNone (cl : Cluster) :
    ∀ cache, (syncLoop cl cache).thrown = none →
      ∀ p ∈ (syncLoop cl cache).cache, ¬(p.2.secret = none ∧ p.2.configMap = none) := by
  intro cache
  induction cache with
  | nil => simp [syncLoop]
  | cons pe rest ih =>
    obtain ⟨k, e⟩ := pe
    rcases h : processEntry cl k e with ⟨oe, calls, logs, thrown⟩
    cases thrown with
    | some err =>
      simp only [syncLoop, h]
      intro hth
      simp at hth
    | none =>
      simp only [syncLoop, h]
      intro hth p hp
      rcases List.mem_append.mp hp with hc | hr
      · cases oe with
        | none => simp [entryList] at hc
        | some e2 =>
          simp [entryList] at hc
          rw [hc]
          exact processEntry_no_bothNone cl k e e2 (by rw [h]) (by rw [h])
      · exact ih hth p hr

theorem syncLoop_converged (cl : Cluster) :
    ∀ cache, (∀ p ∈ cache, convergedEntry p.2 = true) →
      syncLoop cl cache = ⟨cache, [], [], none⟩ := by
  intro cache
  induction cache with
  | nil => intro _; rfl
  | cons pe rest ih =>
    intro hall
    obtain ⟨k, e⟩ := pe
    have hce : convergedEntry e = true := hall (k, e) (by simp)
    rcases e with ⟨es, ecm⟩
    cases es with
    | none => simp [convergedEntry] at hce
    | some s =>
      cases ecm with
      | none => simp [convergedEntry] at hce
      | some cm =>
        have hv : s.metadata.labels.lookup labelSourceConfigMapVersion
            = some cm.metadata.resourceVersion := by
          simpa [convergedEntry] using hce
        have hrest := ih (fun p hp => hall p (List.mem_cons_of_mem _ hp))
        simp [syncLoop, processEntry_pair_eq cl k s cm hv, hrest, entryList]

/-- C9: an entry with both halves absent is removed by the pass with no
cluster call, and after a pass that ran to completion (no error escaped
the loop) no entry with both halves absent persists in the cache. -/
theorem bothAbsent_removed_and_never_persists :
    (∀ (cl : Cluster) (k : String),
      processEntry cl k ⟨none, none⟩ = ⟨none, [], [], none⟩) ∧
    (∀ (cl : Cluster) (cache : List (String × CacheEntry)),
      (syncSecretsPass cl cache).thrown = none →
      ∀ p ∈ (syncSecretsPass cl cache).cache,
        ¬(p.2.secret = none ∧ p.2.configMap = none)) := by
  refine ⟨fun cl k => rfl, fun cl cache hth p hp => ?_⟩
  have h1 : (syncLoop cl cache).thrown = none := by
    simpa [syncSecretsPass] using hth
  have h2 : p ∈ (syncLoop cl cache).cache := by
    simpa [syncSecretsPass] using hp
  exact syncLoop_no_bothNone cl cache h1 p h2

/-- C9 witness: a converged singleton cache completes its pass without a
thrown error, and its surviving entry indeed has a present half. -/
theorem bothAbsent_removed_and_never_persists_witness :
    ¬((("default/my-secret",
        (⟨some syncedSecret, some myConfigMap⟩ : CacheEntry))).2.secret = none ∧
      (("default/my-secret",
        (⟨some syncedSecret, some myConfigMap⟩ : CacheEntry))).2.configMap = none) :=
  bothAbsent_removed_and_never_persists.2 clStub
    [("default/my-secret", ⟨some syncedSecret, some myConfigMap⟩)] (by decide)
    ("default/my-secret", ⟨some syncedSecret, some myConfigMap⟩) (by decide)

/-- C4: for an entry whose Secret carries the source-configmap-version
label equal to the content version of its ConfigMap, the pass issues no
call at all for it and leaves it unchanged; a pass over a cache made only
of such converged entries is a no-op apart from the completion log line
(idempotence under repeated identical triggers). -/
theorem converged_entry_issues_no_writes :
    (∀ (cl : Cluster) (k : String) (e : CacheEntry) (s : V1Secret) (cm : V1ConfigMap),
      e.secret = some s → e.configMap = some cm →
      s.metadata.labels.lookup labelSourceConfigMapVersion = some cm.metadata.resourceVersion →
      processEntry cl k e = ⟨some e, [], [], none⟩) ∧
    (∀ (cl : Cluster) (cache : List (String × CacheEntry)),
      (∀ p ∈ cache, convergedEntry p.2 = true) →
      syncSecretsPass cl cache = ⟨cache, [], [LogEvent.info "Secrets synced"], none⟩) := by
  constructor
  · intro cl k e s cm hs hcm hv
    rcases e with ⟨es, ecm⟩
    cases hs
    cases hcm
    exact processEntry_pair_eq cl k s cm hv
  · intro cl cache hall
    simp [syncSecretsPass, syncLoop_converged cl cache hall]

/-- C4 witness: the converged spec-scenario pair at version 12345. -/
theorem converged_entry_issues_no_writes_witness :
    processEntry clStub "default/my-secret" ⟨some syncedSecret, some myConfigMap⟩ =
      ⟨some ⟨some syncedSecret, some myConfigMap⟩, [], [], none⟩ ∧
    syncSecretsPass clStub [("default/my-secret", ⟨some syncedSecret, some myConfigMap⟩)] =
      ⟨[("default/my-secret", ⟨some syncedSecret, some myConfigMap⟩)], [],
       [LogEvent.info "Secrets synced"], none⟩ :=
  ⟨converged_entry_issues_no_writes.1 clStub "default/my-secret"
      ⟨some syncedSecret, some myConfigMap⟩ syncedSecret myConfigMap rfl rfl (by decide),
   converged_entry_issues_no_writes.2 clStub
      [("default/my-secret", ⟨some syncedSecret, some myConfigMap⟩)] (by decide)⟩

/-- C8: when the data entry named by the source-key label (default
`.env`) is absent from a ConfigMap, materialization fails with the
missing-source-key error and issues no external call whatsoever, and the
reconcile step for any cache entry holding that ConfigMap issues no
cluster call either. -/
theorem missing_source_key_fails_without_calls (cl : Cluster) (cm : V1ConfigMap)
    (ex : Option V1Secret) (h : cm.data.lookup (sourceKeyOf cm) = none) :
    createSecretForConfigMap cl cm ex =
      (.error ("Key " ++ sourceKeyOf cm ++ " not found in ConfigMap " ++ cm.metadata.name), []) ∧
    (∀ k : String, (processEntry cl k ⟨none, some cm⟩).calls = []) ∧
    (∀ (k : String) (s : V1Secret), (processEntry cl k ⟨some s, some cm⟩).calls = []) := by
  have key : ∀ ex2 : Option V1Secret,
      createSecretForConfigMap cl cm ex2 =
        (.error ("Key " ++ sourceKeyOf cm ++ " not found in ConfigMap " ++ cm.metadata.name), []) := by
    intro ex2
    unfold createSecretForConfigMap
    rw [h]
  refine ⟨key ex, fun k => ?_, fun k s => ?_⟩
  · rw [processEntry_create_eq, key none]
  · by_cases hv : s.metadata.labels.lookup labelSourceConfigMapVersion
        = some cm.metadata.resourceVersion
    · rw [processEntry_pair_eq cl k s cm hv]
    · rw [processEntry_pair_ne cl k s cm hv, key (some s)]

/-- C8 witness: a ConfigMap whose source-key label names `nonexistent.env`
while its data only holds `.env`. -/
theorem missing_source_key_fails_without_calls_witness :
    cmMissingSource.data.lookup (sourceKeyOf cmMissingSource) = none ∧
    createSecretForConfigMap clStub cmMissingSource none =
      (.error ("Key " ++ sourceKeyOf cmMissingSource ++ " not found in ConfigMap "
        ++ cmMissingSource.metadata.name), []) ∧
    sourceKeyOf cmMissingSource = "nonexistent.env" :=
  ⟨rfl, (missing_source_key_fails_without_calls clStub cmMissingSource none rfl).1, rfl⟩

theorem getDecryptionSecret_calls (cl : Cluster) (sourceNs keySecretName keySecretKey : String) :
    (getDecryptionSecret cl sourceNs keySecretName keySecretKey).2 =
      [ExtCall.readSecret keySecretName sourceNs] := by
  unfold getDecryptionSecret
  split
  · rfl
  · split <;> rfl

theorem resolveKey_calls_read (cl : Cluster) (cm : V1ConfigMap) :
    ∀ c ∈ (resolveKey cl cm).2, ∃ n ns, c = ExtCall.readSecret n ns := by
  intro c hc
  unfold resolveKey at hc
  split at hc
  next ksn h1 =>
    by_cases hne : ksn ≠ ""
    · rw [if_pos hne] at hc
      split at hc
      next k cs heq =>
        have h2 := getDecryptionSecret_calls cl cm.metadata.ns ksn (decryptionKeyNameOf cm)
        rw [heq] at h2
        simp only [] at h2
        rw [h2] at hc
        simp at hc
        exact ⟨ksn, cm.metadata.ns, hc⟩
      next e cs heq =>
        have h2 := getDecryptionSecret_calls cl cm.metadata.ns ksn (decryptionKeyNameOf cm)
        rw [heq] at h2
        simp only [] at h2
        rw [h2] at hc
        simp at hc
        exact ⟨ksn, cm.metadata.ns, hc⟩
    · rw [if_neg hne] at hc
      simp at hc
  next h1 => simp at hc

theorem resolveKey_error_propagates (cl : Cluster) (cm : V1ConfigMap) (ex : Option V1Secret)
    (sd err : String) (rcalls : List ExtCall)
    (hsd : cm.data.lookup (sourceKeyOf cm) = some sd)
    (hrk : resolveKey cl cm = (.error err, rcalls)) :
    createSecretForConfigMap cl cm ex = (.error err, rcalls) := by
  unfold createSecretForConfigMap
  rw [hsd, hrk]

theorem parse_event_mem (cl : Cluster) (cm : V1ConfigMap) (ex : Option V1Secret)
    (sd : String) (dko : Option String) (rcalls : List ExtCall)
    (hsd : cm.data.lookup (sourceKeyOf cm) = some sd)
    (hrk : resolveKey cl cm = (.ok dko, rcalls)) :
    ExtCall.parseEnv sd dko ∈ (createSecretForConfigMap cl cm ex).2 := by
  unfold createSecretForConfigMap
  rw [hsd, hrk]
  simp only []
  cases hp : cl.parseEnv sd dko with
  | error e => simp
  | ok m => simp

/-- C6: when materialization reaches the build step with a parsed mapping
m, the Secret body it builds and hands to the single write call has the
target-secret label as its name, the namespace of the ConfigMap, exactly
the source-configmap and source-configmap-version labels, and each key of
m mapped to the base64 wire form of its plaintext value. -/
theorem built_secret_shape (cl : Cluster) (cm : V1ConfigMap) (ex : Option V1Secret)
    (sd : String) (dko : Option String) (rcalls : List ExtCall)
    (m : List (String × String))
    (hsd : cm.data.lookup (sourceKeyOf cm) = some sd)
    (hrk : resolveKey cl cm = (.ok dko, rcalls))
    (hparse : cl.parseEnv sd dko = .ok m) :
    (builtSecret cm (targetSecretOf cm) m).metadata.name = targetSecretOf cm ∧
    (builtSecret cm (targetSecretOf cm) m).metadata.ns = cm.metadata.ns ∧
    (builtSecret cm (targetSecretOf cm) m).metadata.labels =
      [(labelSourceConfigMap, cm.metadata.name),
       (labelSourceConfigMapVersion, cm.metadata.resourceVersion)] ∧
    (builtSecret cm (targetSecretOf cm) m).data =
      m.map (fun p => (p.1, base64EncodeString p.2)) ∧
    (createSecretForConfigMap cl cm ex).2 =
      rcalls ++ [ExtCall.parseEnv sd dko] ++
        [match ex with
         | some _ => ExtCall.replaceSecret (targetSecretOf cm) cm.metadata.ns
             (builtSecret cm (targetSecretOf cm) m)
         | none => ExtCall.createSecret cm.metadata.ns
             (builtSecret cm (targetSecretOf cm) m)] := by
  refine ⟨rfl, rfl, rfl, rfl, ?_⟩
  unfold createSecretForConfigMap
  rw [hsd, hrk]
  simp only []
  rw [hparse]
  unfold createSecretWithConfigMapData
  cases ex <;> simp [builtSecret]

/-- C6 witness: the spec scenario ConfigMap materialized against a healthy
cluster issues exactly one parse and one create call, whose body carries
the payload KEY mapped to the base64 wire form of value. -/
theorem built_secret_shape_witness :
    (createSecretForConfigMap clHappy myConfigMap none).2 =
      [] ++ [ExtCall.parseEnv "KEY=value" none] ++
        [ExtCall.createSecret myConfigMap.metadata.ns
          (builtSecret myConfigMap (targetSecretOf myConfigMap) [("KEY", "value")])] ∧
    (builtSecret myConfigMap (targetSecretOf myConfigMap) [("KEY", "value")]).data =
      [("KEY", "dmFsdWU=")] ∧
    targetSecretOf myConfigMap = "my-secret" :=
  ⟨(built_secret_shape clHappy myConfigMap none "KEY=value" none [] [("KEY", "value")]
      rfl rfl rfl).2.2.2.2, by decide, rfl⟩

theorem resolveKey_label_present_found (cl : Cluster) (cm : V1ConfigMap)
    (ksn : String) (ks : V1Secret) (v : String)
    (hne : ksn ≠ "")
    (h1 : cm.metadata.labels.lookup labelDecryptionSecret = some ksn)
    (h2 : cl.readSecret ksn cm.metadata.ns = .ok ks)
    (h3 : ks.data.lookup (decryptionKeyNameOf cm) = some v) :
    resolveKey cl cm =
      (.ok (some (base64DecodeToUtf8 v)), [ExtCall.readSecret ksn cm.metadata.ns]) := by
  unfold resolveKey getDecryptionSecret
  rw [h1]
  simp only []
  rw [if_pos hne]
  rw [h2]
  simp only []
  rw [h3]

theorem resolveKey_label_present_missing (cl : Cluster) (cm : V1ConfigMap)
    (ksn : String) (ks : V1Secret)
    (hne : ksn ≠ "")
    (h1 : cm.metadata.labels.lookup labelDecryptionSecret = some ksn)
    (h2 : cl.readSecret ksn cm.metadata.ns = .ok ks)
    (h3 : ks.data.lookup (decryptionKeyNameOf cm) = none) :
    resolveKey cl cm =
      (.error ("Key " ++ decryptionKeyNameOf cm ++ " not found in secret " ++ ksn),
       [ExtCall.readSecret ksn cm.metadata.ns]) := by
  unfold resolveKey getDecryptionSecret
  rw [h1]
  simp only []
  rw [if_pos hne]
  rw [h2]
  simp only []
  rw [h3]

theorem resolveKey_label_absent (cl : Cluster) (cm : V1ConfigMap)
    (h1 : cm.metadata.labels.lookup labelDecryptionSecret = none) :
    resolveKey cl cm = (.ok none, []) := by
  unfold resolveKey
  rw [h1]

theorem resolveKey_label_empty (cl : Cluster) (cm : V1ConfigMap)
    (h1 : cm.metadata.labels.lookup labelDecryptionSecret = some "") :
    resolveKey cl cm = (.ok none, []) := by
  unfold resolveKey
  rw [h1]
  simp only []
  rw [if_neg (fun h => h rfl)]

/-- C7 counterexample: a present-but-empty decryption-secret label is a
falsy value, so the source skips key resolution entirely: no Secret is
read and the parse function receives no key, while the claim as stated
would have the engine read the Secret named by the label (here the empty
name, which this cluster cannot serve) and hand the resolved key to the
parse function. -/
theorem empty_decryption_label_skips_resolution :
    cmEmptyDecryption.metadata.labels.lookup labelDecryptionSecret = some "" ∧
    resolveKey clHappy cmEmptyDecryption = (.ok none, []) ∧
    (createSecretForConfigMap clHappy cmEmptyDecryption none).2 =
      [ExtCall.parseEnv "ENCRYPTED_KEY=encrypted_value" none,
       ExtCall.createSecret "default"
         (builtSecret cmEmptyDecryption (targetSecretOf cmEmptyDecryption)
           [("KEY", "value")])] :=
  ⟨rfl, rfl, rfl⟩

/-- C7 (amended): decryption key resolution. With a non-empty
decryption-secret label, the key is read from the named Secret in the
same namespace at the entry named by the decryption-secret-key label
(default CONFIG_DECRYPTION_KEY, folded into decryptionKeyNameOf),
base64-decoded to a plain string and handed to the parse function; when
that entry is absent, materialization fails with the
missing-decryption-key error after only the read call; when the label is
absent, or present but empty (a falsy value), no Secret is read and the
parse function receives no key. -/
theorem decryption_key_resolution :
    (∀ (cl : Cluster) (cm : V1ConfigMap) (ksn : String) (ks : V1Secret) (v : String),
      ksn ≠ "" →
      cm.metadata.labels.lookup labelDecryptionSecret = some ksn →
      cl.readSecret ksn cm.metadata.ns = .ok ks →
      ks.data.lookup (decryptionKeyNameOf cm) = some v →
      resolveKey cl cm =
        (.ok (some (base64DecodeToUtf8 v)), [ExtCall.readSecret ksn cm.metadata.ns]) ∧
      (∀ sd : String, cm.data.lookup (sourceKeyOf cm) = some sd →
        ∀ ex : Option V1Secret,
          ExtCall.parseEnv sd (some (base64DecodeToUtf8 v)) ∈
            (createSecretForConfigMap cl cm ex).2)) ∧
    (∀ (cl : Cluster) (cm : V1ConfigMap) (ksn : String) (ks : V1Secret),
      ksn ≠ "" →
      cm.metadata.labels.lookup labelDecryptionSecret = some ksn →
      cl.readSecret ksn cm.metadata.ns = .ok ks →
      ks.data.lookup (decryptionKeyNameOf cm) = none →
      ∀ (sd : String), cm.data.lookup (sourceKeyOf cm) = some sd →
        ∀ ex : Option V1Secret,
          createSecretForConfigMap cl cm ex =
            (.error ("Key " ++ decryptionKeyNameOf cm ++ " not found in secret " ++ ksn),
             [ExtCall.readSecret ksn cm.metadata.ns])) ∧
    (∀ (cl : Cluster) (cm : V1ConfigMap),
      cm.metadata.labels.lookup labelDecryptionSecret = none →
      resolveKey cl cm = (.ok none, []) ∧
      (∀ sd : String, cm.data.lookup (sourceKeyOf cm) = some sd →
        ∀ ex : Option V1Secret,
          ExtCall.parseEnv sd none ∈ (createSecretForConfigMap cl cm ex).2)) ∧
    (∀ (cl : Cluster) (cm : V1ConfigMap),
      cm.metadata.labels.lookup labelDecryptionSecret = some "" →
      resolveKey cl cm = (.ok none, []) ∧
      (∀ sd : String, cm.data.lookup (sourceKeyOf cm) = some sd →
        ∀ ex : Option V1Secret,
          ExtCall.parseEnv sd none ∈ (createSecretForConfigMap cl cm ex).2)) := by
  refine ⟨?_, ?_, ?_, ?_⟩
  · intro cl cm ksn ks v hne h1 h2 h3
    have hrk := resolveKey_label_present_found cl cm ksn ks v hne h1 h2 h3
    exact ⟨hrk, fun sd hsd ex => parse_event_mem cl cm ex sd
      (some (base64DecodeToUtf8 v)) [ExtCall.readSecret ksn cm.metadata.ns] hsd hrk⟩
  · intro cl cm ksn ks hne h1 h2 h3 sd hsd ex
    exact resolveKey_error_propagates cl cm ex sd
      ("Key " ++ decryptionKeyNameOf cm ++ " not found in secret " ++ ksn)
      [ExtCall.readSecret ksn cm.metadata.ns] hsd
      (resolveKey_label_present_missing cl cm ksn ks hne h1 h2 h3)
  · intro cl cm h1
    have hrk := resolveKey_label_absent cl cm h1
    exact ⟨hrk, fun sd hsd ex => parse_event_mem cl cm ex sd none [] hsd hrk⟩
  · intro cl cm h1
    have hrk := resolveKey_label_empty cl cm h1
    exact ⟨hrk, fun sd hsd ex => parse_event_mem cl cm ex sd none [] hsd hrk⟩

/-- C7 witness: against the healthy cluster, the labelled ConfigMap
resolves the default-named key entry, whose base64 wire form decodes to
the plaintext my-secret-key handed to the parse function; the ConfigMap
naming a missing entry fails with the missing-decryption-key error after
only the read; the unlabelled ConfigMap and the empty-labelled ConfigMap
both hand the parse function no key. -/
theorem decryption_key_resolution_witness :
    (resolveKey clHappy cmWithDecryption =
      (.ok (some (base64DecodeToUtf8 "bXktc2VjcmV0LWtleQ==")),
       [ExtCall.readSecret "key-secret" "default"]) ∧
     base64DecodeToUtf8 "bXktc2VjcmV0LWtleQ==" = "my-secret-key" ∧
     ExtCall.parseEnv "ENCRYPTED_KEY=encrypted_value"
        (some (base64DecodeToUtf8 "bXktc2VjcmV0LWtleQ==")) ∈
       (createSecretForConfigMap clHappy cmWithDecryption none).2) ∧
    (createSecretForConfigMap clHappy cmDecryptionWrongKey none =
      (.error ("Key " ++ decryptionKeyNameOf cmDecryptionWrongKey
        ++ " not found in secret key-secret"),
       [ExtCall.readSecret "key-secret" "default"]) ∧
     decryptionKeyNameOf cmDecryptionWrongKey = "OTHER_KEY") ∧
    (resolveKey clHappy myConfigMap = (.ok none, []) ∧
     ExtCall.parseEnv "KEY=value" none ∈
       (createSecretForConfigMap clHappy myConfigMap none).2) ∧
    (resolveKey clHappy cmEmptyDecryption = (.ok none, []) ∧
     ExtCall.parseEnv "ENCRYPTED_KEY=encrypted_value" none ∈
       (createSecretForConfigMap clHappy cmEmptyDecryption none).2) :=
  ⟨⟨(decryption_key_resolution.1 clHappy cmWithDecryption "key-secret" keySecret
        "bXktc2VjcmV0LWtleQ==" (by decide) rfl rfl rfl).1,
    by decide,
    (decryption_key_resolution.1 clHappy cmWithDecryption "key-secret" keySecret
        "bXktc2VjcmV0LWtleQ==" (by decide) rfl rfl rfl).2
      "ENCRYPTED_KEY=encrypted_value" rfl none⟩,
   ⟨decryption_key_resolution.2.1 clHappy cmDecryptionWrongKey "key-secret" keySecret
        (by decide) rfl rfl rfl "ENCRYPTED_KEY=encrypted_value" rfl none,
    rfl⟩,
   ⟨(decryption_key_resolution.2.2.1 clHappy myConfigMap rfl).1,
    (decryption_key_resolution.2.2.1 clHappy myConfigMap rfl).2 "KEY=value" rfl none⟩,
   ⟨(decryption_key_resolution.2.2.2 clHappy cmEmptyDecryption rfl).1,
    (decryption_key_resolution.2.2.2 clHappy cmEmptyDecryption rfl).2
      "ENCRYPTED_KEY=encrypted_value" rfl none⟩⟩

theorem builtSecret_version_label (cm : V1ConfigMap) (name : String)
    (m : List (String × String)) :
    (builtSecret cm name m).metadata.labels.lookup labelSourceConfigMapVersion =
      some cm.metadata.resourceVersion := by
  have h1 : (labelSourceConfigMapVersion == labelSourceConfigMap) = false := by decide
  have h2 : (labelSourceConfigMapVersion == labelSourceConfigMapVersion) = true := by decide
  simp [builtSecret, List.lookup, h1, h2]

theorem createSecretForConfigMap_some_calls (cl : Cluster) (cm : V1ConfigMap) (s : V1Secret) :
    ∀ c ∈ (createSecretForConfigMap cl cm (some s)).2,
      (∃ n ns, c = ExtCall.readSecret n ns) ∨ (∃ sd k, c = ExtCall.parseEnv sd k) ∨
      (∃ m, c = ExtCall.replaceSecret (targetSecretOf cm) cm.metadata.ns
        (builtSecret cm (targetSecretOf cm) m)) := by
  intro c hc
  rcases hsd : cm.data.lookup (sourceKeyOf cm) with _ | sd
  · unfold createSecretForConfigMap at hc
    rw [hsd] at hc
    simp at hc
  · rcases hrk : resolveKey cl cm with ⟨rres, rcalls⟩
    have hr := resolveKey_calls_read cl cm
    rw [hrk] at hr
    simp only [] at hr
    unfold createSecretForConfigMap at hc
    rw [hsd, hrk] at hc
    simp only [] at hc
    cases rres with
    | error e =>
      simp only [] at hc
      exact Or.inl (hr c hc)
    | ok dko =>
      simp only [] at hc
      cases hp : cl.parseEnv sd dko with
      | error e =>
        rw [hp] at hc
        simp only [] at hc
        rcases List.mem_append.mp hc with h | h
        · exact Or.inl (hr c h)
        · right; left
          simp at h
          exact ⟨sd, dko, h⟩
      | ok m =>
        rw [hp] at hc
        simp only [createSecretWithConfigMapData] at hc
        rcases List.mem_append.mp hc with h | h
        · rcases List.mem_append.mp h with h2 | h2
          · exact Or.inl (hr c h2)
          · right; left
            simp at h2
            exact ⟨sd, dko, h2⟩
        · right; right
          simp at h
          exact ⟨m, h⟩

theorem createSecretForConfigMap_some_ok_write (cl : Cluster) (cm : V1ConfigMap)
    (s sec : V1Secret)
    (h : (createSecretForConfigMap cl cm (some s)).1 = .ok sec) :
    ∃ b, ExtCall.replaceSecret (targetSecretOf cm) cm.metadata.ns b ∈
      (createSecretForConfigMap cl cm (some s)).2 := by
  rcases hsd : cm.data.lookup (sourceKeyOf cm) with _ | sd
  · unfold createSecretForConfigMap at h
    rw [hsd] at h
    simp at h
  · rcases hrk : resolveKey cl cm with ⟨rres, rcalls⟩
    unfold createSecretForConfigMap at h ⊢
    rw [hsd, hrk] at h ⊢
    simp only [] at h ⊢
    cases rres with
    | error e => simp at h
    | ok dko =>
      simp only [] at h ⊢
      cases hp : cl.parseEnv sd dko with
      | error e =>
        rw [hp] at h
        simp at h
      | ok m =>
        refine ⟨builtSecret cm (targetSecretOf cm) m, ?_⟩
        simp [createSecretWithConfigMapData, builtSecret]

/-- C5: for an entry with both halves present and a version-label
mismatch, the pass materializes with the existing Secret supplied, so any
write it issues is a replace, never a create; the replace targets the
identity also carried by the existing Secret of a well-keyed entry and
its body is stamped with the new content version; on success the entry
stores the returned Secret, and on a materialization or write failure the
entry is left unchanged with nothing thrown, ready for the next pass. -/
theorem version_drift_replaces_in_place (cl : Cluster) (k : String) (e : CacheEntry)
    (s : V1Secret) (cm : V1ConfigMap)
    (hs : e.secret = some s) (hcm : e.configMap = some cm)
    (hv : s.metadata.labels.lookup labelSourceConfigMapVersion
      ≠ some cm.metadata.resourceVersion) :
    ((processEntry cl k e).calls = (createSecretForConfigMap cl cm (some s)).2) ∧
    (∀ (ns : String) (b : V1Secret),
      ExtCall.createSecret ns b ∉ (createSecretForConfigMap cl cm (some s)).2) ∧
    (∀ (n ns : String) (b : V1Secret),
      ExtCall.replaceSecret n ns b ∈ (createSecretForConfigMap cl cm (some s)).2 →
      n = targetSecretOf cm ∧ ns = cm.metadata.ns ∧
      b.metadata.labels.lookup labelSourceConfigMapVersion
        = some cm.metadata.resourceVersion) ∧
    (s.metadata.name = targetSecretOf cm → s.metadata.ns = cm.metadata.ns →
      ∀ (n ns : String) (b : V1Secret),
        ExtCall.replaceSecret n ns b ∈ (createSecretForConfigMap cl cm (some s)).2 →
        n = s.metadata.name ∧ ns = s.metadata.ns) ∧
    (∀ err : String, (createSecretForConfigMap cl cm (some s)).1 = .error err →
      (processEntry cl k e).entry = some e ∧ (processEntry cl k e).thrown = none) ∧
    (∀ sec : V1Secret, (createSecretForConfigMap cl cm (some s)).1 = .ok sec →
      (processEntry cl k e).entry = some { e with secret := some sec } ∧
      ∃ b, ExtCall.replaceSecret (targetSecretOf cm) cm.metadata.ns b ∈
        (createSecretForConfigMap cl cm (some s)).2) := by
  rcases e with ⟨es, ecm⟩
  cases hs
  cases hcm
  have hpe := processEntry_pair_ne cl k s cm hv
  have hrepl : ∀ (n ns : String) (b : V1Secret),
      ExtCall.replaceSecret n ns b ∈ (createSecretForConfigMap cl cm (some s)).2 →
      n = targetSecretOf cm ∧ ns = cm.metadata.ns ∧
      b.metadata.labels.lookup labelSourceConfigMapVersion
        = some cm.metadata.resourceVersion := by
    intro n ns b hb
    rcases createSecretForConfigMap_some_calls cl cm s _ hb with h | h | h
    · rcases h with ⟨n2, ns2, h⟩; cases h
    · rcases h with ⟨sd2, k2, h⟩; cases h
    · rcases h with ⟨m, h⟩
      cases h
      exact ⟨rfl, rfl, builtSecret_version_label cm (targetSecretOf cm) m⟩
  refine ⟨?_, ?_, hrepl, ?_, ?_, ?_⟩
  · rw [hpe]
    rcases hres : createSecretForConfigMap cl cm (some s) with ⟨res, calls⟩
    cases res <;> rfl
  · intro ns b hb
    rcases createSecretForConfigMap_some_calls cl cm s _ hb with h | h | h
    · rcases h with ⟨n2, ns2, h⟩; cases h
    · rcases h with ⟨sd2, k2, h⟩; cases h
    · rcases h with ⟨m, h⟩; cases h
  · intro hname hns n ns b hb
    obtain ⟨h1, h2, _⟩ := hrepl n ns b hb
    exact ⟨by rw [h1, hname], by rw [h2, hns]⟩
  · intro err herr
    rw [hpe]
    rcases hres : createSecretForConfigMap cl cm (some s) with ⟨res, calls⟩
    rw [hres] at herr
    cases res with
    | error e2 => exact ⟨rfl, rfl⟩
    | ok sec => simp at herr
  · intro sec hsec
    constructor
    · rw [hpe]
      rcases hres : createSecretForConfigMap cl cm (some s) with ⟨res, calls⟩
      rw [hres] at hsec
      cases res with
      | error e2 => simp at hsec
      | ok sec2 =>
        simp only [] at hsec
        simp only [Except.ok.injEq] at hsec
        rw [hsec]
    · exact createSecretForConfigMap_some_ok_write cl cm s sec hsec

/-- C5 witness: the stale pair at version 00000 against version 12345.
Against the failing stub cluster the entry survives unchanged for retry;
against the healthy cluster the entry stores the replaced Secret and a
version-stamped replace call was issued at the existing identity. -/
theorem version_drift_replaces_in_place_witness :
    ((processEntry clStub "default/my-secret"
        ⟨some staleSecret, some myConfigMap⟩).entry =
      some ⟨some staleSecret, some myConfigMap⟩ ∧
     (processEntry clStub "default/my-secret"
        ⟨some staleSecret, some myConfigMap⟩).thrown = none) ∧
    ((processEntry clHappy "default/my-secret"
        ⟨some staleSecret, some myConfigMap⟩).entry =
      some ⟨some (builtSecret myConfigMap (targetSecretOf myConfigMap) [("KEY", "value")]),
            some myConfigMap⟩ ∧
     ∃ b, ExtCall.replaceSecret (targetSecretOf myConfigMap) myConfigMap.metadata.ns b ∈
       (createSecretForConfigMap clHappy myConfigMap (some staleSecret)).2) :=
  ⟨(version_drift_replaces_in_place clStub "default/my-secret"
      ⟨some staleSecret, some myConfigMap⟩ staleSecret myConfigMap rfl rfl
      (by decide)).2.2.2.2.1 "unavailable" rfl,
   (version_drift_replaces_in_place clHappy "default/my-secret"
      ⟨some staleSecret, some myConfigMap⟩ staleSecret myConfigMap rfl rfl
      (by decide)).2.2.2.2.2
     (builtSecret myConfigMap (targetSecretOf myConfigMap) [("KEY", "value")]) rfl⟩

theorem schedInv_step (s : SchedState) (e : Ev)
    (_h : SchedInv s) : SchedInv (step s e) := by
  cases e with
  | trigger =>
    unfold step applyTrigger
    by_cases hr : s.isReady = false
    · rw [if_pos hr]
      intro _
      exact hr
    · rw [if_neg hr]
      intro _
      rfl
  | finish =>
    unfold step applyFinish
    intro hf
    simp at hf

theorem schedInv_run (l : List Ev) : ∀ s : SchedState, SchedInv s → SchedInv (run s l) := by
  induction l with
  | nil => intro s h; exact h
  | cons e rest ih =>
    intro s h
    have h2 : run s (e :: rest) = run (step s e) rest := rfl
    rw [h2]
    exact ih (step s e) (schedInv_step s e h)

theorem run_append (s : SchedState) (l1 l2 : List Ev) :
    run s (l1 ++ l2) = run (run s l1) l2 :=
  List.foldl_append step s l1 l2

theorem triggers_fix_pending (s : SchedState) (h1 : s.isReady = false)
    (h2 : s.isPendingSync = true) :
    ∀ m : Nat, run s (List.replicate m Ev.trigger) = s := by
  intro m
  induction m with
  | zero => rfl
  | succ k ih =>
    have hstep : step s Ev.trigger = s := by
      unfold step applyTrigger
      rw [if_pos h1]
      rcases s with ⟨r, p, f, c⟩
      simp at h2
      rw [h2]
    have : run s (List.replicate (k + 1) Ev.trigger) = run (step s Ev.trigger) (List.replicate k Ev.trigger) := by
      rw [List.replicate_succ]
      rfl
    rw [this, hstep, ih]

/-- C3: triggers are coalesced and passes never overlap. A trigger
arriving while a pass is busy only sets the pending flag; any positive
number of triggers during one busy pass leads, after that pass finishes,
to exactly one scheduled re-trigger starting exactly one additional pass,
whose own completion schedules nothing further; and from the ready state,
along any valid event sequence, a trigger arriving while a pass is in
flight never starts a pass. -/
theorem sync_scheduler_coalesces_and_serializes :
    (∀ s : SchedState, s.isReady = false →
      step s Ev.trigger = { s with isPendingSync := true }) ∧
    (∀ n m : Nat, 1 ≤ m →
      run (busyState n) (List.replicate m Ev.trigger) =
        { busyState n with isPendingSync := true } ∧
      finishSchedulesResync (run (busyState n) (List.replicate m Ev.trigger)) = true ∧
      run (busyState n) (List.replicate m Ev.trigger ++ [Ev.finish, Ev.trigger]) =
        { isReady := false, isPendingSync := false, passInFlight := true,
          passCount := n + 1 } ∧
      finishSchedulesResync
        (run (busyState n) (List.replicate m Ev.trigger ++ [Ev.finish, Ev.trigger])) = false ∧
      run (busyState n) (List.replicate m Ev.trigger ++ [Ev.finish, Ev.trigger, Ev.finish]) =
        { isReady := true, isPendingSync := false, passInFlight := false,
          passCount := n + 1 }) ∧
    (∀ l : List Ev, ValidFrom readyInit l → (run readyInit l).passInFlight = true →
      step (run readyInit l) Ev.trigger =
        { run readyInit l with isPendingSync := true }) := by
  refine ⟨?_, ?_, ?_⟩
  · intro s hr
    unfold step applyTrigger
    rw [if_pos hr]
  · intro n m hm
    obtain ⟨k, rfl⟩ : ∃ k, m = k + 1 := ⟨m - 1, (Nat.succ_pred_eq_of_pos hm).symm⟩
    have hbusy : run (busyState n) (List.replicate (k + 1) Ev.trigger) =
        { busyState n with isPendingSync := true } := by
      rw [List.replicate_succ]
      have h1 : run (busyState n) (Ev.trigger :: List.replicate k Ev.trigger) =
          run (step (busyState n) Ev.trigger) (List.replicate k Ev.trigger) := rfl
      rw [h1]
      have h2 : step (busyState n) Ev.trigger = { busyState n with isPendingSync := true } := rfl
      rw [h2]
      exact triggers_fix_pending _ rfl rfl k
    refine ⟨hbusy, by rw [hbusy]; rfl, ?_, ?_, ?_⟩
    · rw [run_append, hbusy]; rfl
    · rw [run_append, hbusy]; rfl
    · rw [run_append, hbusy]; rfl
  · intro l hval hflight
    have hinv : SchedInv (run readyInit l) := by
      refine schedInv_run l readyInit ?_
      intro hf
      simp [readyInit] at hf
    have hr : (run readyInit l).isReady = false := hinv hflight
    unfold step applyTrigger
    rw [if_pos hr]

/-- C3 witness: two triggers during the first busy pass coalesce into one
pending flag and, after the pass finishes, exactly one further pass. -/
theorem sync_scheduler_coalesces_and_serializes_witness :
    step (busyState 1) Ev.trigger = { busyState 1 with isPendingSync := true } ∧
    run (busyState 1) (List.replicate 2 Ev.trigger ++ [Ev.finish, Ev.trigger, Ev.finish]) =
      { isReady := true, isPendingSync := false, passInFlight := false, passCount := 2 } ∧
    step (run readyInit [Ev.trigger]) Ev.trigger =
      { run readyInit [Ev.trigger] with isPendingSync := true } :=
  ⟨sync_scheduler_coalesces_and_serializes.1 (busyState 1) rfl,
   (sync_scheduler_coalesces_and_serializes.2.1 1 2 (by decide)).2.2.2.2,
   sync_scheduler_coalesces_and_serializes.2.2 [Ev.trigger]
     ⟨(fun h => nomatch h), trivial⟩ rfl⟩

/-- C10: before startup completes the ready flag is down, so every
trigger call only records the pending flag and returns: any number of
triggers leaves the manager state exactly as constructed, with no pass
started (and hence no cluster call, since cluster calls are issued only
from within a started pass). The pending flag is initialized set, and the
trigger issued by start right after raising the ready flag always starts
the first pass. -/
theorem pre_ready_triggers_only_mark_pending :
    preInit.isPendingSync = true ∧
    preInit.passCount = 0 ∧
    preInit.passInFlight = false ∧
    (∀ n : Nat, run preInit (List.replicate n Ev.trigger) = preInit) ∧
    applyTrigger readyInit =
      { isReady := false, isPendingSync := false, passInFlight := true, passCount := 1 } :=
  ⟨rfl, rfl, rfl,
   triggers_fix_pending preInit rfl rfl,
   rfl⟩

/-- C1 (code bug): an orphan entry (Secret present, ConfigMap absent) is
indeed deleted from the cluster and dropped from the cache, but the pass
does not stay silent: after the delete branch the source falls through
into the `else if` version guard, dereferences the absent ConfigMap and
throws a TypeError, so the pass aborts and logs the failed-to-sync error
line. The spec (and the repository test expecting no error log for
orphan cleanup) requires the delete rule alone, applied silently. -/
theorem orphan_cleanup_logs_error_code_bug :
    syncSecretsPass clDeleteOk [("default/orphan-secret", ⟨some orphanSecret, none⟩)] =
      ⟨[], [ExtCall.deleteSecret "orphan-secret" "default"],
       [LogEvent.info "ConfigMap for default/orphan-secret not found. Deleting secret.",
        LogEvent.error "Failed to sync secrets"],
       some typeErrorMsg⟩ ∧
    LogEvent.error "Failed to sync secrets" ∈
      (syncSecretsPass clDeleteOk
        [("default/orphan-secret", ⟨some orphanSecret, none⟩)]).logs := by
  constructor
  · rfl
  · decide

/-- C2 (code bug): a cluster write failure on an orphan entry does not
leave the pass processing the remaining entries: the TypeError thrown
right after the delete branch aborts the loop, so a second entry whose
Secret is still missing gets no create call during the pass, even though
processing it alone would issue one. The pass itself still returns (the
error is caught and logged by the syncSecrets wrapper), so the process
survives, but per-entry independence is violated. -/
theorem entry_failure_aborts_pass_code_bug :
    syncSecretsPass clDeleteFail
        [("default/orphan-secret", ⟨some orphanSecret, none⟩),
         ("default/other-secret", ⟨none, some otherConfigMap⟩)] =
      ⟨[("default/orphan-secret", ⟨some orphanSecret, none⟩),
        ("default/other-secret", ⟨none, some otherConfigMap⟩)],
       [ExtCall.deleteSecret "orphan-secret" "default"],
       [LogEvent.info "ConfigMap for default/orphan-secret not found. Deleting secret.",
        LogEvent.error "Failed to delete secret default/orphan-secret",
        LogEvent.error "Failed to sync secrets"],
       some typeErrorMsg⟩ ∧
    (processEntry clDeleteFail "default/other-secret" ⟨none, some otherConfigMap⟩).calls =
      [ExtCall.parseEnv "A=b" none,
       ExtCall.createSecret "default" (builtSecret otherConfigMap "other-secret" [("A", "b")])] := by
  constructor
  · rfl
  · rfl
